import Mathlib

/-!
Verification of the dispatch core of `butlerd` (`src/butlerd/router.go`):
the `Router.Dispatch` pipeline (panic containment, error classification,
reply encoding), the per-call `RequestContext` (notification interception,
progress bridge, `ProfileClient`), and the `CancelFuncs` registry.

External collaborators (the JSON-RPC transport, the `neterr` /
`pkg/errors` / `progress` libraries, the sqlite pool) are embedded as
abstract capabilities: an error value is represented by the observations
the router makes of it (its `Error()` string, its `%+v` rendering, whether
`AsButlerdError` succeeds, whether `neterr.IsNetworkError` holds, whether
its root cause is the `werrors.ErrCancelled` sentinel).
-/

namespace Butlerd

/-- A JSON-ish value stored in an error's `data` map (`map[string]interface{}`
in Go).  Handler-chosen values the router never inspects are abstracted as
`other`. -/
inductive DVal where
  | str : String → DVal
  | other : Nat → DVal
deriving DecidableEq

/-- A Go `map[string]interface{}`, embedded as a partial function. -/
def DataMap : Type := String → Option DVal

/-- Modelled from the spec: the structured protocol-error capability that
`AsButlerdError` (repository code outside `src/`) detects — the failure
exposes its own wire code, message and data, used verbatim
(spec section 4.4, rule 1). -/
structure ButlerdError where
  code : Int
  message : String
  data : Option DataMap

/-- A Go `error` value, embedded by the observations the router makes of it:
`message` is `err.Error()`, `render` is `fmt.Sprintf` with percent-plus-v
(the full descriptive rendering, cause chain included), `butlerd` is the
result of `AsButlerdError(err)`, `isNetworkError` is
`neterr.IsNetworkError(err)`, and `causeIsCancelled` says whether
`errors.Cause(err)` is the `werrors.ErrCancelled` sentinel. -/
structure GoErr where
  message : String
  render : String
  butlerd : Option ButlerdError
  isNetworkError : Bool
  causeIsCancelled : Bool

/-- `errors.WithStack` from `pkg/errors`: wraps an error, preserving its
message and its cause chain (hence every cause-derived observation), and
appending a stack trace to the percent-plus-v rendering. -/
def withStack (e : GoErr) (stackTrace : String) : GoErr :=
  { e with render := e.render ++ stackTrace }

/-- `errors.Errorf` from `pkg/errors`: a fresh fundamental error.  It carries
no protocol-error capability, is not a network error, and is its own root
cause (hence not the cancellation sentinel); its rendering is its message
followed by a stack trace. -/
def errorf (msg : String) (stackTrace : String) : GoErr :=
  { message := msg
    render := msg ++ stackTrace
    butlerd := none
    isNetworkError := false
    causeIsCancelled := false }

/-- `jsonrpc2.CodeMethodNotFound` (JSON-RPC 2.0 standard code). -/
def codeMethodNotFound : Int := -32601

/-- `jsonrpc2.CodeInternalError` (JSON-RPC 2.0 standard code). -/
def codeInternalError : Int := -32603

/-- Modelled from the spec: the fixed daemon-specific
`CodeNetworkDisconnected` code (repository code outside `src/`). -/
def codeNetworkDisconnected : Int := 9006

/-- Modelled from the spec: the fixed daemon-specific
`CodeOperationCancelled` code (repository code outside `src/`). -/
def codeOperationCancelled : Int := 499

/-- Modelled from the spec: the fixed message `CodeNetworkDisconnected.Error()`
returns (repository code outside `src/`). -/
def msgNetworkDisconnected : String := "Network disconnected"

/-- Modelled from the spec: the fixed message `CodeOperationCancelled.Error()`
returns (repository code outside `src/`). -/
def msgOperationCancelled : String := "Operation cancelled"

/-- The value a panicking handler escaped with: either a Go `error`, or some
other value, abstracted by its `fmt` percent-v rendering. -/
inductive PanicVal where
  | errVal : GoErr → PanicVal
  | nonError : String → PanicVal

/-- The recover block of `Dispatch` (router.go lines 77-85): a panic with an
error value becomes `errors.WithStack(rErr)`; any other panic value `r`
becomes `errors.Errorf` of `"panic: %v"` applied to `r`. -/
def recoverToErr (stackTrace : String) : PanicVal → GoErr
  | .errVal e => withStack e stackTrace
  | .nonError s => errorf ("panic: " ++ s) stackTrace

/-- A request handler's behaviour, abstracted by how its invocation ends:
a result value, a returned error, or a panic. -/
inductive Outcome where
  | ok : DVal → Outcome
  | fail : GoErr → Outcome
  | panicWith : PanicVal → Outcome

/-- A notification handler's behaviour: it returns nothing, so only normal
return versus panic is observable. -/
inductive NotifOutcome where
  | ok : NotifOutcome
  | panicWith : PanicVal → NotifOutcome

/-- The `Router` state `Dispatch` reads: the two handler tables (each
handler abstracted by its behaviour) and the daemon version string. -/
structure Router where
  handlers : String → Option Outcome
  notificationHandlers : String → Option NotifOutcome
  butlerVersionString : String

/-- An inbound `jsonrpc2.Request`: method, identifier, and the `Notif` flag. -/
structure Request where
  method : String
  id : Nat
  notif : Bool

/-- An outbound action `Dispatch` performs on the connection:
`origConn.Reply` or `origConn.ReplyWithError`. -/
inductive Action where
  | reply : Nat → DVal → Action
  | replyError : Nat → Int → String → DataMap → Action

/-- What one `Dispatch` invocation did: the connection actions it performed,
the request handlers it invoked, and the notification handlers it invoked. -/
structure DispatchResult where
  actions : List Action
  invoked : List String
  notifInvoked : List String

/-- Error classification inside `Dispatch` (router.go lines 162-177):
`AsButlerdError` first, then `neterr.IsNetworkError`, then the
`werrors.ErrCancelled` root cause, then the generic internal error. -/
def classifyErr (e : GoErr) : Int × String × Option DataMap :=
  match e.butlerd with
  | some b => (b.code, b.message, b.data)
  | none =>
    if e.isNetworkError then (codeNetworkDisconnected, msgNetworkDisconnected, none)
    else if e.causeIsCancelled then (codeOperationCancelled, msgOperationCancelled, none)
    else (codeInternalError, e.message, none)

/-- The augmentation of the error `data` map (router.go lines 180-184): an
absent map becomes empty, then `data["stack"]` is set to the percent-plus-v
rendering of the failure and `data["butlerVersion"]` to the daemon version. -/
def errorDataAugment (base : Option DataMap) (render version : String) : DataMap :=
  fun k =>
    if k = "stack" then some (.str render)
    else if k = "butlerVersion" then some (.str version)
    else
      match base with
      | some d => d k
      | none => none

/-- The error-reply branch of `Dispatch` (router.go lines 158-196): classify
the failure, augment its data map, send `ReplyWithError`. -/
def mkErrorReply (r : Router) (id : Nat) (e : GoErr) : Action :=
  .replyError id (classifyErr e).1 (classifyErr e).2.1
    (errorDataAugment (classifyErr e).2.2 e.render r.butlerVersionString)

/-- Modelled from the spec: the `RpcError` value `Dispatch` builds for an
unknown method (router.go lines 137-140; the `RpcError` type itself is
repository code outside `src/`).  It exposes the protocol-error capability
with `jsonrpc2.CodeMethodNotFound` and the message naming the method, and
carries no data of its own. -/
def methodNotFoundErr (method : String) : GoErr :=
  let msg := "Method \x27" ++ method ++ "\x27 not found"
  { message := msg
    render := msg
    butlerd := some { code := codeMethodNotFound, message := msg, data := none }
    isNetworkError := false
    causeIsCancelled := false }

/-- `Router.Dispatch` (router.go lines 63-197).  `consumerOk` is whether
`NewStateConsumer` (repository code outside `src/`) succeeded; on failure
`Dispatch` returns at once.  `stackTrace` abstracts the stack text the
`pkg/errors` wrappers append to renderings.  Notifications never produce a
connection action, even when the handler panics (the recovered error is
dropped by the `req.Notif` early return). -/
def Dispatch (r : Router) (req : Request) (consumerOk : Bool)
    (stackTrace : String) : DispatchResult :=
  if consumerOk = false then { actions := [], invoked := [], notifInvoked := [] }
  else if req.notif then
    match r.notificationHandlers req.method with
    | some _ => { actions := [], invoked := [], notifInvoked := [req.method] }
    | none => { actions := [], invoked := [], notifInvoked := [] }
  else
    match r.handlers req.method with
    | some o =>
      match o with
      | .ok v => { actions := [.reply req.id v], invoked := [req.method], notifInvoked := [] }
      | .fail e =>
        { actions := [mkErrorReply r req.id e], invoked := [req.method], notifInvoked := [] }
      | .panicWith p =>
        { actions := [mkErrorReply r req.id (recoverToErr stackTrace p)]
          invoked := [req.method]
          notifInvoked := [] }
    | none =>
      { actions := [mkErrorReply r req.id (methodNotFoundErr req.method)]
        invoked := []
        notifInvoked := [] }

/-- The `(code, message)` pairs of the error replies a dispatch sent. -/
def errorReplies (d : DispatchResult) : List (Int × String) :=
  d.actions.filterMap fun a =>
    match a with
    | .replyError _ c m _ => some (c, m)
    | _ => none

/-- The `data` maps of the error replies a dispatch sent. -/
def errorReplyDatas (d : DispatchResult) : List DataMap :=
  d.actions.filterMap fun a =>
    match a with
    | .replyError _ _ _ dm => some dm
    | _ => none

/-- The Error Classifier of spec section 4.4, written from the spec's words
for the refinement claim C1: precedence is protocol-error capability
verbatim, then network-connectivity, then the cancellation sentinel, then
the generic internal error with the rendered description as message. -/
def specClassify (e : GoErr) : Int × String :=
  match e.butlerd with
  | some b => (b.code, b.message)
  | none =>
    if e.isNetworkError then (codeNetworkDisconnected, msgNetworkDisconnected)
    else if e.causeIsCancelled then (codeOperationCancelled, msgOperationCancelled)
    else (codeInternalError, e.message)

/-- The payload of an outbound notification.  `Progress` notifications carry
the `ProgressNotification` triple (floats embedded as rationals: the router
only stores and forwards them, no float arithmetic happens in the router);
any other handler-chosen payload is abstracted as `raw`. -/
inductive PVal where
  | progressPayload : Rat → Rat → Rat → PVal
  | raw : Nat → PVal
deriving DecidableEq

/-- A registered `NotificationInterceptor`, abstracted by the result (a Go
`error` or nil) it returns when invoked. -/
structure NotificationInterceptor where
  res : Option GoErr

/-- What one `RequestContext.Notify` call did: its returned error value,
the notifications it sent on the wire via `Conn.Notify`, and the
interceptor invocations it made instead. -/
structure NotifyLog where
  res : Option GoErr
  wireSends : List (String × PVal)
  interceptorCalls : List (String × PVal)

/-- The `progress.Tracker` capability (external library, internal math out
of scope): the stored fractional completion plus the ETA-seconds and
bytes-per-second estimates the router reads back. -/
structure Tracker where
  progress : Rat
  eta : Rat
  bps : Rat

/-- The per-call `RequestContext` state the claims touch: the interception
table (`none` embeds Go's nil map), the optional tracker, and the
`Conn.Notify` capability's result, abstracted as a function of the
notification sent. -/
structure RequestContext where
  notificationInterceptors : Option (String → Option NotificationInterceptor)
  tracker : Option Tracker
  connNotifyErr : String → PVal → Option GoErr

/-- `RequestContext.InterceptNotification` (router.go lines 223-228): a nil
table is first initialised empty, then the interceptor is stored under
`method`. -/
def RequestContext.InterceptNotification (rc : RequestContext) (method : String)
    (ni : NotificationInterceptor) : RequestContext :=
  match rc.notificationInterceptors with
  | none =>
    { rc with notificationInterceptors := some fun m =>
        if m = method then some ni else none }
  | some t =>
    { rc with notificationInterceptors := some fun m =>
        if m = method then some ni else t m }

/-- `RequestContext.StopInterceptingNotification` (router.go lines 230-235):
a nil table is a silent no-op; otherwise the entry is deleted. -/
def RequestContext.StopInterceptingNotification (rc : RequestContext)
    (method : String) : RequestContext :=
  match rc.notificationInterceptors with
  | none => rc
  | some t =>
    { rc with notificationInterceptors := some fun m =>
        if m = method then none else t m }

/-- `RequestContext.Notify` (router.go lines 237-244): when the table is
non-nil and holds an interceptor for `method`, the interceptor is invoked
and its result returned; otherwise the notification goes out through
`Conn.Notify`. -/
def RequestContext.Notify (rc : RequestContext) (method : String)
    (params : PVal) : NotifyLog :=
  match rc.notificationInterceptors with
  | some t =>
    match t method with
    | some ni => { res := ni.res, wireSends := [], interceptorCalls := [(method, params)] }
    | none =>
      { res := rc.connNotifyErr method params
        wireSends := [(method, params)]
        interceptorCalls := [] }
  | none =>
    { res := rc.connNotifyErr method params
      wireSends := [(method, params)]
      interceptorCalls := [] }

/-- The `OnProgress` callback `Dispatch` wires into the consumer (router.go
lines 106-120): with no tracker the signal is skipped; otherwise the
tracker's progress is set to `alpha`, and one `Progress` notification
carrying `alpha` and the tracker's ETA and BPS read-backs is emitted
through `RequestContext.Notify`.  The second component lists the `Notify`
invocations made. -/
def onProgress (rc : RequestContext) (alpha : Rat) :
    RequestContext × List NotifyLog :=
  match rc.tracker with
  | none => (rc, [])
  | some t =>
    let tracker := { t with progress := alpha }
    let rc := { rc with tracker := some tracker }
    (rc, [rc.Notify "Progress" (.progressPayload alpha tracker.eta tracker.bps)])

/-- The `CancelFuncs` registry: callbacks are abstracted by an identity
token, so that firing one is observable. -/
structure CancelFuncs where
  funcs : String → Option Nat

/-- What one `CancelFuncs.Call` did: the updated registry, the callbacks it
fired, and its boolean result. -/
structure CallResult where
  cf : CancelFuncs
  fired : List Nat
  found : Bool

/-- `CancelFuncs.Add` (router.go lines 316-318). -/
def CancelFuncs.Add (cf : CancelFuncs) (id : String) (f : Nat) : CancelFuncs :=
  { funcs := fun k => if k = id then some f else cf.funcs k }

/-- `CancelFuncs.Remove` (router.go lines 320-322). -/
def CancelFuncs.Remove (cf : CancelFuncs) (id : String) : CancelFuncs :=
  { funcs := fun k => if k = id then none else cf.funcs k }

/-- `CancelFuncs.Call` (router.go lines 324-332): a present entry is fired,
deleted, and `true` returned; a missing entry returns `false` and changes
nothing. -/
def CancelFuncs.Call (cf : CancelFuncs) (id : String) : CallResult :=
  match cf.funcs id with
  | some f =>
    { cf := { funcs := fun k => if k = id then none else cf.funcs k }
      fired := [f]
      found := true }
  | none => { cf := cf, fired := [], found := false }

/-- A stored profile row, as `ProfileClient` reads it. -/
structure Profile where
  id : Int
  apiKey : String
deriving DecidableEq

/-- An acquire or release of a pooled storage connection
(`DBPool.Get` / `DBPool.Put`). -/
inductive PoolEvent where
  | acquire : PoolEvent
  | release : PoolEvent
deriving DecidableEq

/-- How a `ProfileClient` call ended: a panic (carrying the panicked error's
message) or a normal return of the profile and the credential key the
client resolver was given. -/
inductive PCOutcome where
  | panicked : String → PCOutcome
  | returned : Profile → String → PCOutcome
deriving DecidableEq

/-- `RequestContext.ProfileClient` (router.go lines 250-268), producing the
pool-event trace alongside the outcome.  `lookup` embeds
`models.ProfileByID` (modelled from the spec: a profile-by-identifier
lookup on the acquired connection, returning nil when absent; repository
code outside `src/`).  The deferred `DBPool.Put` runs on every exit path,
panics included, so each post-acquire failure still releases first. -/
def ProfileClient (lookup : Int → Option Profile) (profileID : Int) :
    List PoolEvent × PCOutcome :=
  if profileID = 0 then ([], .panicked "profileId must be non-zero")
  else
    match lookup profileID with
    | none =>
      ([.acquire, .release], .panicked ("Could not find profile " ++ toString profileID))
    | some profile =>
      if profile.apiKey = "" then
        ([.acquire, .release],
          .panicked ("Profile " ++ toString profileID ++ " lacks API key"))
      else ([.acquire, .release], .returned profile profile.apiKey)

/-! Concrete fixtures used to instantiate the theorems below. -/

/-- A plain unclassified failure. -/
def errInternal : GoErr :=
  { message := "boom"
    render := "boom"
    butlerd := none
    isNetworkError := false
    causeIsCancelled := false }

/-- A router whose only request handler, under `Install.Queue`, behaves as
`o` (when given); no notification handlers. -/
def mkRouter (o : Option Outcome) : Router :=
  { handlers := fun m => if m = "Install.Queue" then o else none
    notificationHandlers := fun _ => none
    butlerVersionString := "v1.2.3" }

/-- A request for `Install.Queue`. -/
def reqInstall : Request := { method := "Install.Queue", id := 7, notif := false }

/-- An inbound notification for an unregistered method. -/
def reqNotif : Request := { method := "Log", id := 0, notif := true }

/-- A handler-supplied error `data` map that itself chooses the key
`"stack"` (and another key), for probing the augmentation step. -/
def callerChosenData : DataMap :=
  fun k =>
    if k = "stack" then some (.str "mine")
    else if k = "retry" then some (.str "yes")
    else none

/-- A structured (protocol-capability) failure whose own data map already
holds a `"stack"` entry. -/
def errCallerStack : GoErr :=
  { message := "api error"
    render := "rendered failure"
    butlerd := some { code := 400, message := "api error", data := some callerChosenData }
    isNetworkError := false
    causeIsCancelled := false }

/-- A registry holding callback `7` under `"abc"` and nothing else. -/
def cancelFuncsABC : CancelFuncs :=
  { funcs := fun k => if k = "abc" then some 7 else none }

/-- A profile table holding only profile `12`, which lacks an API key. -/
def lookupOne : Int → Option Profile :=
  fun i => if i = 12 then some { id := 12, apiKey := "" } else none

/-- A context with an active tracker and no interceptors. -/
def rcTracked : RequestContext :=
  { notificationInterceptors := none
    tracker := some { progress := 0, eta := 12, bps := 100 }
    connNotifyErr := fun _ _ => none }

/-- A context intercepting `Progress` notifications. -/
def rcIntercepted : RequestContext :=
  { notificationInterceptors := some fun m =>
      if m = "Progress" then some { res := none } else none
    tracker := none
    connNotifyErr := fun _ _ => none }

/-! ## Theorems -/

/-- Helper: the in-dispatch classification agrees with the spec's Error
Classifier on the `(code, message)` components. -/
theorem classifyErr_agrees_specClassify (e : GoErr) :
    ((classifyErr e).1, (classifyErr e).2.1) = specClassify e := by
  rcases e with ⟨msg, ren, bd, net, canc⟩
  cases bd <;> cases net <;> cases canc <;> simp [classifyErr, specClassify]

/-- C1: for every dispatched request whose handler fails with an error `e`,
the error reply sent carries the `(code, message)` chosen by the spec's
exact classification precedence: the failure's own protocol-error
code/message verbatim when it exposes that capability; else the fixed
network-disconnected code when it is a network failure; else the fixed
operation-cancelled code when its root cause is the cancellation sentinel;
else the generic internal-error code with the failure's description. -/
theorem dispatch_failure_uses_classifier_precedence (r : Router) (req : Request)
    (e : GoErr) (stackTrace : String) (hn : req.notif = false)
    (hh : r.handlers req.method = some (.fail e)) :
    errorReplies (Dispatch r req true stackTrace) = [specClassify e] := by
  have hdisp : Dispatch r req true stackTrace =
      { actions := [mkErrorReply r req.id e]
        invoked := [req.method]
        notifInvoked := [] } := by
    simp [Dispatch, hn, hh]
  rw [hdisp, ← classifyErr_agrees_specClassify e]
  rfl

/-- Witness for C1 at a concrete unclassified failure. -/
theorem dispatch_failure_uses_classifier_precedence_witness :
    errorReplies (Dispatch (mkRouter (some (.fail errInternal))) reqInstall true "st")
      = [specClassify errInternal] :=
  dispatch_failure_uses_classifier_precedence (mkRouter (some (.fail errInternal)))
    reqInstall errInternal "st" rfl rfl

/-- C5: the first `CancelFuncs.Call` on a registered identifier fires the
stored callback exactly once, removes the entry (touching no other entry),
and returns `true`; a second call, or a call on an unregistered identifier,
fires nothing, changes nothing, and returns `false`. -/
theorem cancelFuncs_call_fires_once_then_not_found (cf : CancelFuncs) (id : String)
    (f : Nat) (hf : cf.funcs id = some f) :
    (cf.Call id).fired = [f] ∧ (cf.Call id).found = true ∧
    (cf.Call id).cf.funcs id = none ∧
    (∀ k, k ≠ id → (cf.Call id).cf.funcs k = cf.funcs k) ∧
    ((cf.Call id).cf.Call id).fired = [] ∧
    ((cf.Call id).cf.Call id).found = false ∧
    ((cf.Call id).cf.Call id).cf = (cf.Call id).cf ∧
    (∀ cf0 : CancelFuncs, cf0.funcs id = none →
      (cf0.Call id).fired = [] ∧ (cf0.Call id).found = false ∧ (cf0.Call id).cf = cf0) := by
  have h1 : cf.Call id =
      { cf := { funcs := fun k => if k = id then none else cf.funcs k }
        fired := [f]
        found := true } := by
    simp [CancelFuncs.Call, hf]
  have hnone : ∀ cf0 : CancelFuncs, cf0.funcs id = none →
      cf0.Call id = { cf := cf0, fired := [], found := false } := by
    intro cf0 h0
    simp [CancelFuncs.Call, h0]
  have h2 := hnone (cf.Call id).cf (by rw [h1]; simp)
  refine ⟨by rw [h1], by rw [h1], by rw [h1]; simp, ?_, by rw [h2], by rw [h2],
    by rw [h2], fun cf0 h0 => by rw [hnone cf0 h0]; exact ⟨rfl, rfl, rfl⟩⟩
  intro k hk
  rw [h1]
  simp [hk]

/-- Witness for C5: callback `7` registered under `"abc"`. -/
theorem cancelFuncs_call_fires_once_then_not_found_witness :
    (cancelFuncsABC.Call "abc").fired = [7] ∧ (cancelFuncsABC.Call "abc").found = true ∧
    (cancelFuncsABC.Call "abc").cf.funcs "abc" = none ∧
    (∀ k, k ≠ "abc" → (cancelFuncsABC.Call "abc").cf.funcs k = cancelFuncsABC.funcs k) ∧
    ((cancelFuncsABC.Call "abc").cf.Call "abc").fired = [] ∧
    ((cancelFuncsABC.Call "abc").cf.Call "abc").found = false ∧
    ((cancelFuncsABC.Call "abc").cf.Call "abc").cf = (cancelFuncsABC.Call "abc").cf ∧
    (∀ cf0 : CancelFuncs, cf0.funcs "abc" = none →
      (cf0.Call "abc").fired = [] ∧ (cf0.Call "abc").found = false ∧
      (cf0.Call "abc").cf = cf0) :=
  cancelFuncs_call_fires_once_then_not_found cancelFuncsABC "abc" 7 rfl

/-- C6: for a dispatched notification no connection action is ever
performed — not on success, not on a handler panic, not when the method is
unregistered (and then no notification handler is invoked either) — and no
request handler is ever invoked. -/
theorem dispatch_notification_never_replies (r : Router) (req : Request)
    (consumerOk : Bool) (stackTrace : String) (hn : req.notif = true) :
    (Dispatch r req consumerOk stackTrace).actions = [] ∧
    (Dispatch r req consumerOk stackTrace).invoked = [] ∧
    (r.notificationHandlers req.method = none →
      (Dispatch r req consumerOk stackTrace).notifInvoked = []) := by
  cases consumerOk with
  | false => simp [Dispatch]
  | true => cases hno : r.notificationHandlers req.method <;> simp [Dispatch, hn, hno]

/-- Witness for C6: a notification for an unregistered method. -/
theorem dispatch_notification_never_replies_witness :
    (Dispatch (mkRouter none) reqNotif true "st").actions = [] ∧
    (Dispatch (mkRouter none) reqNotif true "st").invoked = [] ∧
    ((mkRouter none).notificationHandlers reqNotif.method = none →
      (Dispatch (mkRouter none) reqNotif true "st").notifInvoked = []) :=
  dispatch_notification_never_replies (mkRouter none) reqNotif true "st" rfl

/-- C7: `ProfileClient 0` panics before any storage connection is acquired;
for every nonzero profile identifier, a missing profile or an empty
credential panics only after the acquired connection is released, and the
pool events of any nonzero call are balanced (no connection leak). -/
theorem profileClient_zero_and_release_discipline (lookup : Int → Option Profile) :
    ProfileClient lookup 0 = ([], .panicked "profileId must be non-zero") ∧
    (∀ i, i ≠ 0 → lookup i = none →
      ProfileClient lookup i =
        ([.acquire, .release], .panicked ("Could not find profile " ++ toString i))) ∧
    (∀ i p, i ≠ 0 → lookup i = some p → p.apiKey = "" →
      ProfileClient lookup i =
        ([.acquire, .release], .panicked ("Profile " ++ toString i ++ " lacks API key"))) ∧
    (∀ i, i ≠ 0 → (ProfileClient lookup i).1.count .acquire
        = (ProfileClient lookup i).1.count .release) := by
  refine ⟨by simp [ProfileClient], ?_, ?_, ?_⟩
  · intro i hi hl
    simp [ProfileClient, hi, hl]
  · intro i p hi hl hk
    simp [ProfileClient, hi, hl, hk]
  · intro i hi
    cases hl : lookup i with
    | none => simp [ProfileClient, hi, hl]
    | some p =>
      by_cases hk : p.apiKey = "" <;> simp [ProfileClient, hi, hl, hk]

/-- Witness for C7: profile `12` exists but lacks an API key; the call
panics with the connection released. -/
theorem profileClient_zero_and_release_discipline_witness :
    ProfileClient lookupOne 12 =
      ([.acquire, .release],
        .panicked ("Profile " ++ toString (12 : Int) ++ " lacks API key")) :=
  (profileClient_zero_and_release_discipline lookupOne).2.2.1 12
    { id := 12, apiKey := "" } (by decide) rfl rfl

/-- C2: a panicking request handler is contained: the dispatch still sends
exactly one error reply.  When the panic value is an error `e`, the reply
data's `"stack"` rendering contains `e`'s description (the wrap preserves
its detail; the hypothesis records the Go convention that an error's
percent-plus-v rendering contains its `Error()` description).  When the
panic value is a non-error rendered as `v`, the reply's message is
`"panic: "` followed by `v`. -/
theorem dispatch_contains_handler_panics (r : Router) (req : Request) (p : PanicVal)
    (stackTrace : String) (hn : req.notif = false)
    (hh : r.handlers req.method = some (.panicWith p))
    (hrend : ∀ e, p = .errVal e → e.message.data <:+: e.render.data) :
    ∃ c m d, (Dispatch r req true stackTrace).actions = [.replyError req.id c m d] ∧
      (∀ e, p = .errVal e → ∃ s, d "stack" = some (.str s) ∧ e.message.data <:+: s.data) ∧
      (∀ v, p = .nonError v → c = codeInternalError ∧ m = "panic: " ++ v) := by
  have hdisp : Dispatch r req true stackTrace =
      { actions := [mkErrorReply r req.id (recoverToErr stackTrace p)]
        invoked := [req.method]
        notifInvoked := [] } := by
    simp [Dispatch, hn, hh]
  refine ⟨(classifyErr (recoverToErr stackTrace p)).1,
    (classifyErr (recoverToErr stackTrace p)).2.1,
    errorDataAugment (classifyErr (recoverToErr stackTrace p)).2.2
      (recoverToErr stackTrace p).render r.butlerVersionString,
    by rw [hdisp]; rfl, ?_, ?_⟩
  · rintro e rfl
    refine ⟨(withStack e stackTrace).render, by simp [errorDataAugment, recoverToErr], ?_⟩
    obtain ⟨u, v, huv⟩ := hrend e rfl
    refine ⟨u, v ++ stackTrace.data, ?_⟩
    show u ++ e.message.data ++ (v ++ stackTrace.data) = (e.render ++ stackTrace).data
    rw [String.data_append, ← huv]
    simp [List.append_assoc]
  · rintro v rfl
    constructor <;> simp [recoverToErr, classifyErr, errorf]

/-- Witness for C2 at a handler panicking with a non-error value. -/
theorem dispatch_contains_handler_panics_witness :
    ∃ c m d,
      (Dispatch (mkRouter (some (.panicWith (.nonError "42")))) reqInstall true "st").actions
        = [.replyError reqInstall.id c m d] ∧
      (∀ e, PanicVal.nonError "42" = .errVal e →
        ∃ s, d "stack" = some (.str s) ∧ e.message.data <:+: s.data) ∧
      (∀ v, PanicVal.nonError "42" = .nonError v →
        c = codeInternalError ∧ m = "panic: " ++ v) :=
  dispatch_contains_handler_panics (mkRouter (some (.panicWith (.nonError "42"))))
    reqInstall (.nonError "42") "st" rfl rfl (fun e he => by cases he)

/-- Helper: the augmented data map always carries the rendering under
`"stack"`. -/
theorem errorDataAugment_stack (base : Option DataMap) (render version : String) :
    errorDataAugment base render version "stack" = some (.str render) := by
  simp [errorDataAugment]

/-- Helper: the augmented data map always carries the daemon version under
`"butlerVersion"`. -/
theorem errorDataAugment_version (base : Option DataMap) (render version : String) :
    errorDataAugment base render version "butlerVersion" = some (.str version) := by
  simp [errorDataAugment]

/-- Helper: the augmentation leaves every other key of a handler-supplied
data map unchanged. -/
theorem errorDataAugment_other (base : DataMap) (render version : String) (k : String)
    (h1 : k ≠ "stack") (h2 : k ≠ "butlerVersion") :
    errorDataAugment (some base) render version k = base k := by
  simp [errorDataAugment, h1, h2]

/-- Helper: for a failure exposing the protocol-error capability with its
own data map, augmenting the classified data leaves every key other than
`"stack"` and `"butlerVersion"` at the caller-chosen value. -/
theorem errorDataAugment_classify_preserves (e : GoErr) (version : String)
    (b : ButlerdError) (d0 : DataMap) (hb : e.butlerd = some b)
    (hd : b.data = some d0) (k : String) (hk1 : k ≠ "stack")
    (hk2 : k ≠ "butlerVersion") :
    errorDataAugment (classifyErr e).2.2 e.render version k = d0 k := by
  have hbase : (classifyErr e).2.2 = some d0 := by
    simp [classifyErr, hb, hd]
  rw [hbase]
  exact errorDataAugment_other d0 e.render version k hk1 hk2

/-- C3 (amended): every error reply `Dispatch` sends carries under
`"stack"` exactly the full rendering of the failure that produced it (so a
caller-chosen `"stack"` entry is overwritten) and under `"butlerVersion"`
the daemon's version string; and every key of a failure-supplied data map
other than those two is preserved — whether the failure was returned by
the handler or carried by its panic.  A successful handler produces no
error reply. -/
theorem dispatch_error_reply_data_invariant (r : Router) (req : Request)
    (stackTrace : String) (hn : req.notif = false) :
    (∀ e, r.handlers req.method = some (.fail e) →
      (errorReplyDatas (Dispatch r req true stackTrace)).Forall fun dm =>
        dm "stack" = some (.str e.render) ∧
        dm "butlerVersion" = some (.str r.butlerVersionString) ∧
        ∀ b d0, e.butlerd = some b → b.data = some d0 →
          ∀ k, k ≠ "stack" → k ≠ "butlerVersion" → dm k = d0 k) ∧
    (∀ p, r.handlers req.method = some (.panicWith p) →
      (errorReplyDatas (Dispatch r req true stackTrace)).Forall fun dm =>
        dm "stack" = some (.str (recoverToErr stackTrace p).render) ∧
        dm "butlerVersion" = some (.str r.butlerVersionString) ∧
        ∀ b d0, (recoverToErr stackTrace p).butlerd = some b → b.data = some d0 →
          ∀ k, k ≠ "stack" → k ≠ "butlerVersion" → dm k = d0 k) ∧
    (r.handlers req.method = none →
      (errorReplyDatas (Dispatch r req true stackTrace)).Forall fun dm =>
        dm "stack" = some (.str (methodNotFoundErr req.method).render) ∧
        dm "butlerVersion" = some (.str r.butlerVersionString)) ∧
    (∀ v, r.handlers req.method = some (.ok v) →
      errorReplyDatas (Dispatch r req true stackTrace) = []) := by
  refine ⟨?_, ?_, ?_, ?_⟩
  · intro e hh
    have hdisp : Dispatch r req true stackTrace =
        { actions := [mkErrorReply r req.id e]
          invoked := [req.method]
          notifInvoked := [] } := by
      simp [Dispatch, hn, hh]
    rw [hdisp]
    exact ⟨errorDataAugment_stack .., errorDataAugment_version ..,
      fun b d0 hb hd k hk1 hk2 =>
        errorDataAugment_classify_preserves e r.butlerVersionString b d0 hb hd k hk1 hk2⟩
  · intro p hh
    have hdisp : Dispatch r req true stackTrace =
        { actions := [mkErrorReply r req.id (recoverToErr stackTrace p)]
          invoked := [req.method]
          notifInvoked := [] } := by
      simp [Dispatch, hn, hh]
    rw [hdisp]
    exact ⟨errorDataAugment_stack .., errorDataAugment_version ..,
      fun b d0 hb hd k hk1 hk2 =>
        errorDataAugment_classify_preserves (recoverToErr stackTrace p)
          r.butlerVersionString b d0 hb hd k hk1 hk2⟩
  · intro hh
    have hdisp : Dispatch r req true stackTrace =
        { actions := [mkErrorReply r req.id (methodNotFoundErr req.method)]
          invoked := []
          notifInvoked := [] } := by
      simp [Dispatch, hn, hh]
    rw [hdisp]
    exact ⟨errorDataAugment_stack .., errorDataAugment_version ..⟩
  · intro v hh
    have hdisp : Dispatch r req true stackTrace =
        { actions := [.reply req.id v], invoked := [req.method], notifInvoked := [] } := by
      simp [Dispatch, hn, hh]
    rw [hdisp]
    rfl

/-- Witness for C3 (amended) at a structured failure carrying its own data
map (which includes a caller-chosen `"stack"` entry). -/
theorem dispatch_error_reply_data_invariant_witness :
    (errorReplyDatas
        (Dispatch (mkRouter (some (.fail errCallerStack))) reqInstall true "st")).Forall
      fun dm =>
        dm "stack" = some (.str errCallerStack.render) ∧
        dm "butlerVersion" =
          some (.str (mkRouter (some (.fail errCallerStack))).butlerVersionString) ∧
        ∀ b d0, errCallerStack.butlerd = some b → b.data = some d0 →
          ∀ k, k ≠ "stack" → k ≠ "butlerVersion" → dm k = d0 k :=
  (dispatch_error_reply_data_invariant (mkRouter (some (.fail errCallerStack)))
    reqInstall "st" rfl).1 errCallerStack rfl

/-- C3 counterexample: a handler-supplied data map that itself chose the
key `"stack"` does not survive the augmentation — its `"stack"` entry is
replaced by the failure's rendering, refuting "appended without replacing
any caller-chosen keys" as stated. -/
theorem dispatch_error_data_overwrites_caller_stack_key :
    callerChosenData "stack" = some (.str "mine") ∧
    (errorReplyDatas
        (Dispatch (mkRouter (some (.fail errCallerStack))) reqInstall true "")).map
      (fun dm => dm "stack") = [some (.str "rendered failure")] ∧
    ¬ (errorReplyDatas
        (Dispatch (mkRouter (some (.fail errCallerStack))) reqInstall true "")).map
      (fun dm => dm "stack") = [some (.str "mine")] := by
  exact ⟨rfl, rfl, by decide⟩

/-- C4: dispatching a request whose method is in no request-handler table
sends one error reply with the method-not-found code and the message naming
the missing method, and invokes no handler. -/
theorem dispatch_unknown_method_not_found_reply (r : Router) (req : Request)
    (stackTrace : String) (hn : req.notif = false)
    (hh : r.handlers req.method = none) :
    (∃ d, (Dispatch r req true stackTrace).actions =
        [.replyError req.id codeMethodNotFound
          ("Method \x27" ++ req.method ++ "\x27 not found") d]) ∧
    req.method.data <:+: ("Method \x27" ++ req.method ++ "\x27 not found").data ∧
    (Dispatch r req true stackTrace).invoked = [] := by
  have hdisp : Dispatch r req true stackTrace =
      { actions := [mkErrorReply r req.id (methodNotFoundErr req.method)]
        invoked := []
        notifInvoked := [] } := by
    simp [Dispatch, hn, hh]
  refine ⟨⟨errorDataAugment none (methodNotFoundErr req.method).render r.butlerVersionString,
    by rw [hdisp]; rfl⟩, ?_, by rw [hdisp]⟩
  refine ⟨"Method \x27".data, "\x27 not found".data, ?_⟩
  simp [String.data_append, List.append_assoc]

/-- Witness for C4 at a router with no handler for the request's method. -/
theorem dispatch_unknown_method_not_found_reply_witness :
    (∃ d, (Dispatch (mkRouter none) reqInstall true "st").actions =
        [.replyError reqInstall.id codeMethodNotFound
          ("Method \x27" ++ reqInstall.method ++ "\x27 not found") d]) ∧
    reqInstall.method.data <:+:
      ("Method \x27" ++ reqInstall.method ++ "\x27 not found").data ∧
    (Dispatch (mkRouter none) reqInstall true "st").invoked = [] :=
  dispatch_unknown_method_not_found_reply (mkRouter none) reqInstall "st" rfl rfl

/-- C8: a progress signal with no active tracker is ignored entirely; with
an active tracker it sets the tracker's fractional completion to `alpha`
and makes exactly one `Notify` call, a `"Progress"` notification carrying
`alpha` together with the ETA and BPS read back from the tracker, routed
through the interception-aware `Notify` path. -/
theorem onProgress_tracker_update_single_notification (rc : RequestContext)
    (alpha : Rat) :
    (rc.tracker = none → onProgress rc alpha = (rc, [])) ∧
    (∀ t, rc.tracker = some t →
      onProgress rc alpha =
        ({ rc with tracker := some { t with progress := alpha } },
          [RequestContext.Notify { rc with tracker := some { t with progress := alpha } }
            "Progress" (.progressPayload alpha t.eta t.bps)]) ∧
      (onProgress rc alpha).2.length = 1) := by
  constructor
  · intro h
    simp [onProgress, h]
  · intro t h
    exact ⟨by simp [onProgress, h], by simp [onProgress, h]⟩

/-- Witness for C8 at a context with an active tracker. -/
theorem onProgress_tracker_update_single_notification_witness :
    onProgress rcTracked (1 / 2) =
      ({ rcTracked with tracker := some { progress := 1 / 2, eta := 12, bps := 100 } },
        [RequestContext.Notify
          { rcTracked with tracker := some { progress := 1 / 2, eta := 12, bps := 100 } }
          "Progress" (.progressPayload (1 / 2) 12 100)]) ∧
    (onProgress rcTracked (1 / 2)).2.length = 1 :=
  (onProgress_tracker_update_single_notification rcTracked (1 / 2)).2
    { progress := 0, eta := 12, bps := 100 } rfl

/-- C9: `Notify` invokes the interceptor registered for the method on this
context instead of sending on the wire, its result becoming `Notify`'s
result; with no interceptor registered — the table absent (nil) or holding
no entry for the method — the notification is sent over the connection.
Installing an interceptor with `InterceptNotification` routes the next
`Notify` for that method to it. -/
theorem notify_interception_semantics (rc : RequestContext) (method : String)
    (params : PVal) :
    (∀ t ni, rc.notificationInterceptors = some t → t method = some ni →
      rc.Notify method params =
        { res := ni.res, wireSends := [], interceptorCalls := [(method, params)] }) ∧
    (rc.notificationInterceptors = none →
      rc.Notify method params =
        { res := rc.connNotifyErr method params
          wireSends := [(method, params)]
          interceptorCalls := [] }) ∧
    (∀ t, rc.notificationInterceptors = some t → t method = none →
      rc.Notify method params =
        { res := rc.connNotifyErr method params
          wireSends := [(method, params)]
          interceptorCalls := [] }) ∧
    (∀ ni, (rc.InterceptNotification method ni).Notify method params =
      { res := ni.res, wireSends := [], interceptorCalls := [(method, params)] }) := by
  refine ⟨?_, ?_, ?_, ?_⟩
  · intro t ni ht hm
    simp [RequestContext.Notify, ht, hm]
  · intro h
    simp [RequestContext.Notify, h]
  · intro t ht hm
    simp [RequestContext.Notify, ht, hm]
  · intro ni
    cases h : rc.notificationInterceptors <;>
      simp [RequestContext.Notify, RequestContext.InterceptNotification, h]

/-- Witness for C9 at a context intercepting `"Progress"`. -/
theorem notify_interception_semantics_witness :
    rcIntercepted.Notify "Progress" (.raw 0) =
      { res := NotificationInterceptor.res { res := none }
        wireSends := []
        interceptorCalls := [("Progress", .raw 0)] } :=
  (notify_interception_semantics rcIntercepted "Progress" (.raw 0)).1
    (fun m => if m = "Progress" then some { res := none } else none)
    { res := none } rfl rfl

/-- C10: when construction of the per-call state consumer fails, `Dispatch`
returns at once: no connection action of any kind, no request handler and
no notification handler invoked, even for a request expecting a reply. -/
theorem dispatch_consumer_failure_silent (r : Router) (req : Request)
    (stackTrace : String) :
    Dispatch r req false stackTrace = { actions := [], invoked := [], notifInvoked := [] } := by
  simp [Dispatch]

end Butlerd
